import Mathlib

/-!
Shallow embedding of the wifi_jammer_location measurement-ingestion,
event-detection and inference core, together with proofs about it.

Source files embedded here:
* src/src/wjl/analysis/event_detector.py  (EventDetector, NetworkEvent)
* src/src/iwc/analysis/inference_engine.py (InferenceEngine, Inference)
* src/src/wjl/database.py                  (Database: nodes / measurements /
  channel_amplitude tables and their operations)
* src/src/wjl/dashboard/relay_api.py       (relay ingestion endpoints)

Modelling conventions:
* pandas timestamps are modelled as `Nat` (seconds); flooring a timestamp to
  its 5-minute bucket (`replace(second=0, microsecond=0)` followed by
  `replace(minute=(minute // 5) * 5)`) is `t / 300 * 300`.
* numeric metric values are integers in the source schema (`deauth_count`,
  `disassoc_count`, `rf_jam_detected` are INTEGER columns), so they are
  modelled as `Int`; coordinate values are opaque to every operation modelled
  here (only null-ness matters), so their carrier is also `Int`.
* a pandas DataFrame window is a list of rows plus column-presence flags
  (a missing column and a column full of nulls are distinguished, as in the
  source).
* Python `list.sort` / `DataFrame.sort_values` (stable sorts) are modelled
  with `List.insertionSort`, which is stable and sorts by the same key.
* Python dict / JSON values are the inductive `Json` below; Python `None`
  and JSON `null` are both `Json.null`, exactly as `json.loads` conflates
  them.  Python truthiness is `Json.truthy`.
* `hashlib.sha256(...).hexdigest()` is an abstract parameter
  `sha256hex : String → String` of the relay environment, and
  `datetime.fromisoformat` an abstract parser `parseIso`; both are
  instantiated concretely in witnesses.
-/

namespace WJL

/-- One row of a monitoring-data window (DataFrame row).  Only the columns the
event detector reads are carried. -/
structure Row where
  timestamp : Nat
  deauth_count : Option Int
  disassoc_count : Option Int
  rf_jam_detected : Option Int
deriving DecidableEq, Repr

/-- A DataFrame window: rows plus column-presence flags (pandas
`"c" in df.columns`). -/
structure Window where
  rows : List Row
  hasTimestampCol : Bool
  hasDeauthCol : Bool
  hasDisassocCol : Bool
  hasRfJamCol : Bool
deriving DecidableEq, Repr

/-- NetworkEvent from event_detector.py. -/
structure NetworkEvent where
  event_id : String
  event_type : String
  severity : String
  timestamp : Nat
  description : String
  metrics : List (String × Int)
deriving DecidableEq, Repr

/-- The `thresholds` sub-dict of the detector config; `none` models an absent
key (so that `dict.get(key, default)` falls back to the default). -/
structure Thresholds where
  deauth_count_threshold : Option Int
  disassoc_count_threshold : Option Int
deriving DecidableEq, Repr

/-- `self.thresholds.get("deauth_count_threshold", 5)`. -/
def deauthThreshold (t : Thresholds) : Int :=
  t.deauth_count_threshold.getD 5

/-- `self.thresholds.get("disassoc_count_threshold", deauth_threshold)`. -/
def disassocThreshold (t : Thresholds) : Int :=
  t.disassoc_count_threshold.getD (deauthThreshold t)

/-- `"critical" if count > 20 else ("severe" if count > 10 else "moderate")`. -/
def countSeverity (count : Int) : String :=
  if count > 20 then "critical" else if count > 10 then "severe" else "moderate"

/-- The `NetworkEvent(...)` constructor call of the deauth scan. -/
def mkDeauthEvent (ts : Nat) (c : Int) : NetworkEvent :=
  ⟨"deauth_burst_" ++ toString ts, "deauth_burst", countSeverity c, ts,
    "Deauth frame burst: " ++ toString c ++ " deauth frames in capture window",
    [("deauth_count", c)]⟩

/-- The `NetworkEvent(...)` constructor call of the disassoc scan. -/
def mkDisassocEvent (ts : Nat) (c : Int) : NetworkEvent :=
  ⟨"disassoc_burst_" ++ toString ts, "disassoc_burst", countSeverity c, ts,
    "Disassoc frame burst: " ++ toString c ++ " disassoc frames in capture window",
    [("disassoc_count", c)]⟩

/-- The `NetworkEvent(...)` constructor call of the RF-jam scan. -/
def mkRfJamEvent (ts : Nat) (v : Int) : NetworkEvent :=
  ⟨"rf_jamming_" ++ toString ts, "rf_jamming", "severe", ts,
    "High noise or low SNR; possible RF jamming or interference",
    [("rf_jam_detected", v)]⟩

/-- Deauth part of `_detect_threshold_events`: filter the frame by
`deauth_count > threshold` (a null never exceeds the threshold, as in pandas),
then build one event per surviving row under the `pd.notna` guard. -/
def deauthEvents (t : Thresholds) (w : Window) : List NetworkEvent :=
  if w.hasDeauthCol then
    ((w.rows.filter fun r =>
        match r.deauth_count with
        | some c => decide (c > deauthThreshold t)
        | none => false).filterMap fun r =>
      match r.deauth_count with
      | some c => some (mkDeauthEvent r.timestamp c)
      | none => none)
  else []

/-- Disassoc part of `_detect_threshold_events`. -/
def disassocEvents (t : Thresholds) (w : Window) : List NetworkEvent :=
  if w.hasDisassocCol then
    ((w.rows.filter fun r =>
        match r.disassoc_count with
        | some c => decide (c > disassocThreshold t)
        | none => false).filterMap fun r =>
      match r.disassoc_count with
      | some c => some (mkDisassocEvent r.timestamp c)
      | none => none)
  else []

/-- RF-jam part of `_detect_threshold_events`: filter by
`rf_jam_detected >= 1`, then re-check `pd.notna(...) and ... >= 1` per row. -/
def rfJamEvents (w : Window) : List NetworkEvent :=
  if w.hasRfJamCol then
    ((w.rows.filter fun r =>
        match r.rf_jam_detected with
        | some v => decide (v ≥ 1)
        | none => false).filterMap fun r =>
      match r.rf_jam_detected with
      | some v => if v ≥ 1 then some (mkRfJamEvent r.timestamp v) else none
      | none => none)
  else []

/-- `_detect_threshold_events`: one `events` list, appended in source order
(deauth scan, then disassoc scan, then RF-jam scan). -/
def detectThresholdEvents (t : Thresholds) (w : Window) : List NetworkEvent :=
  deauthEvents t w ++ disassocEvents t w ++ rfJamEvents w

/-- `severity_order = {"critical": 4, "severe": 3, "moderate": 2, "minor": 1}`
with `dict.get(s, 0)`. -/
def severityOrder (s : String) : Nat :=
  if s = "critical" then 4 else if s = "severe" then 3
  else if s = "moderate" then 2 else if s = "minor" then 1 else 0

/-- 5-minute floor of a timestamp: `replace(second=0, microsecond=0)` then
`replace(minute=(minute // 5) * 5)`. -/
def timeKey (ts : Nat) : Nat := ts / 300 * 300

/-- Loop body of `_deduplicate_events`.  `seen` is the `seen` set of
`(event_type, time_key)` keys, `acc` the `deduplicated` list.  When the key
was already seen, the source looks up
`next(e for e in deduplicated if (e.event_type, time_key) == key)` — note that
`time_key` there is the *current* event's bucket, so the lookup matches on
`event_type` alone; on a strictly higher severity it removes that element and
appends the current event at the end.  The `none` find-branch is unreachable
(the source would raise `StopIteration` there) and is modelled as a skip. -/
def dedupGo (seen : List (String × Nat)) (acc : List NetworkEvent) :
    List NetworkEvent → List NetworkEvent
  | [] => acc
  | e :: rest =>
    if seen.contains (e.event_type, timeKey e.timestamp) then
      match acc.find? (fun x =>
          (x.event_type, timeKey e.timestamp) == (e.event_type, timeKey e.timestamp)) with
      | some ex =>
          if severityOrder ex.severity < severityOrder e.severity then
            dedupGo seen (acc.erase ex ++ [e]) rest
          else
            dedupGo seen acc rest
      | none => dedupGo seen acc rest
    else
      dedupGo ((e.event_type, timeKey e.timestamp) :: seen) (acc ++ [e]) rest

/-- `_deduplicate_events`. -/
def deduplicateEvents (events : List NetworkEvent) : List NetworkEvent :=
  dedupGo [] [] events

/-- Sort key relation used by `events.sort(key=lambda e: e.timestamp)`. -/
def tsLE (a b : NetworkEvent) : Prop := a.timestamp ≤ b.timestamp

instance : DecidableRel tsLE := fun a b => Nat.decLe a.timestamp b.timestamp

instance : IsTotal NetworkEvent tsLE := ⟨fun a b => Nat.le_total a.timestamp b.timestamp⟩

instance : IsTrans NetworkEvent tsLE := ⟨fun _ _ _ h h2 => Nat.le_trans h h2⟩

/-- Sort key relation used by `df.sort_values("timestamp")`. -/
def rowLE (a b : Row) : Prop := a.timestamp ≤ b.timestamp

instance : DecidableRel rowLE := fun a b => Nat.decLe a.timestamp b.timestamp

instance : IsTotal Row rowLE := ⟨fun a b => Nat.le_total a.timestamp b.timestamp⟩

instance : IsTrans Row rowLE := ⟨fun _ _ _ h h2 => Nat.le_trans h h2⟩

/-- `EventDetector.detect_events`: guard on empty frame / missing timestamp
column, sort the rows by timestamp, run the threshold scan, sort the events by
timestamp (stable, like `list.sort`), deduplicate. -/
def detect_events (t : Thresholds) (w : Window) : List NetworkEvent :=
  if w.rows.isEmpty || !w.hasTimestampCol then []
  else
    deduplicateEvents (List.insertionSort tsLE (detectThresholdEvents t
      ⟨List.insertionSort rowLE w.rows, w.hasTimestampCol, w.hasDeauthCol,
        w.hasDisassocCol, w.hasRfJamCol⟩))

/-! ## Inference engine (src/src/iwc/analysis/inference_engine.py) -/

/-- Inference from inference_engine.py.  `evidence` and `related_metrics` are
small string-to-number maps. -/
structure Inference where
  cause_type : String
  confidence : String
  description : String
  evidence : List (String × Int)
  related_metrics : List (String × Int)
deriving DecidableEq, Repr

/-- `confidence_order = {"high": 3, "medium": 2, "low": 1}` with
`dict.get(c, 0)`. -/
def confidenceOrder (s : String) : Nat :=
  if s = "high" then 3 else if s = "medium" then 2 else if s = "low" then 1 else 0

/-- `event.metrics.get(key, default)`. -/
def metricsGetD (m : List (String × Int)) (k : String) (d : Int) : Int :=
  match m.find? (fun p => p.1 == k) with
  | some p => p.2
  | none => d

/-- Descending-confidence precedence used by
`inferences.sort(key=..., reverse=True)` (stable). -/
def confGE (a b : Inference) : Prop :=
  confidenceOrder b.confidence ≤ confidenceOrder a.confidence

instance : DecidableRel confGE :=
  fun a b => Nat.decLe (confidenceOrder b.confidence) (confidenceOrder a.confidence)

instance : IsTotal Inference confGE :=
  ⟨fun a b => Nat.le_total (confidenceOrder b.confidence) (confidenceOrder a.confidence)⟩

instance : IsTrans Inference confGE := ⟨fun _ _ _ h h2 => Nat.le_trans h2 h⟩

/-- `InferenceEngine.generate_inferences`.  The context window is only tested
for emptiness (`context_data.empty`), exactly as in the source. -/
def generate_inferences (event : NetworkEvent) (contextRows : List Row) : List Inference :=
  if contextRows.isEmpty then []
  else
    let inferences : List Inference :=
      if event.event_type = "deauth_burst" then
        [⟨"wifi_deauth", "high",
          "Deauth frames detected; possible deauth attack or misconfigured device.",
          [("deauth_count", metricsGetD event.metrics "deauth_count" 0)],
          [("deauth_count", metricsGetD event.metrics "deauth_count" 0)]⟩]
      else if event.event_type = "rf_jamming" then
        [⟨"wifi_rf_jamming", "medium",
          "High noise or low SNR; possible RF jamming or interference.",
          [("rf_jam_detected", metricsGetD event.metrics "rf_jam_detected" 1)],
          []⟩]
      else if event.event_type = "disassoc_burst" then
        [⟨"wifi_disassoc", "high",
          "Disassoc frames detected; possible attack or client disconnects.",
          [("disassoc_count", metricsGetD event.metrics "disassoc_count" 0)],
          [("disassoc_count", metricsGetD event.metrics "disassoc_count" 0)]⟩]
      else []
    List.insertionSort confGE inferences

/-! ## Python/JSON values (for database.py and relay_api.py) -/

/-- Parsed JSON values as Python sees them (`json.loads`); Python `None` and
JSON `null` are both `Json.null`.  Numbers are modelled as integers (the slim
schema's metric columns are integral; fractional values are opaque to every
operation modelled here). -/
inductive Json where
  | null : Json
  | bool (b : Bool) : Json
  | num (n : Int) : Json
  | str (s : String) : Json
  | arr (elems : List Json) : Json
  | obj (fields : List (String × Json)) : Json

/-- Python truthiness of a JSON value. -/
def Json.truthy : Json → Bool
  | .null => false
  | .bool b => b
  | .num n => n != 0
  | .str s => !s.isEmpty
  | .arr xs => !xs.isEmpty
  | .obj fs => !fs.isEmpty

/-- Whether the value is Python `None` (`x is None`). -/
def Json.isNull : Json → Bool
  | .null => true
  | _ => false

/-- `dict.get(k)` on a parsed JSON object: `Json.null` models Python `None`
for an absent key. -/
def jget (fs : List (String × Json)) (k : String) : Json :=
  match fs.find? (fun p => p.1 == k) with
  | some p => p.2
  | none => .null

/-- Python `a or b`. -/
def pyOr (a b : Json) : Json := if a.truthy then a else b

/-- Python `a or b` on strings (header extraction). -/
def pyOrStr (a b : String) : String := if a = "" then b else a

/-- Python `int(x)`; `none` models the `TypeError`/`ValueError` the source
would raise (uncaught, surfacing as a 500 response).  String parsing is
modelled for decimal integer literals. -/
def pyInt : Json → Option Int
  | .num n => some n
  | .bool b => some (if b then 1 else 0)
  | .str s => s.toInt?
  | _ => none

/-- `float(x) if x is not None else None` (node coordinates in
relay_api.py); the outer `none` models an uncaught conversion error. -/
def floatOrNone : Json → Option (Option Int)
  | .null => some none
  | .num n => some (some n)
  | .bool b => some (some (if b then 1 else 0))
  | .str s => (s.toInt?).map some
  | _ => none

/-- `float(x) if x is not None else fallback` (second upsert in
`api_measurements`, which falls back to the stored coordinate). -/
def floatOrElse (j : Json) (fallback : Option Int) : Option (Option Int) :=
  match j with
  | .null => some fallback
  | .num n => some (some n)
  | .bool b => some (some (if b then 1 else 0))
  | .str s => (s.toInt?).map some
  | _ => none

/-! ## Storage layer (src/src/wjl/database.py) -/

/-- One row of the `nodes` table.  `name` is kept as a raw JSON value because
SQLite stores whatever Python value the caller passed. -/
structure NodeRow where
  id : String
  name : Json
  latitude : Option Int
  longitude : Option Int
  api_key_hash : Option String
  last_seen : Option Nat

/-- One row of the `monitoring_data` table as built by `api_measurements`
(the slim-schema dict passed to `insert_measurement`). -/
structure Measurement where
  timestamp : Json
  node_id : Option String
  wifi_channel : Json
  wifi_util_pct : Json
  noise_dbm : Json
  deauth_count : Json
  disassoc_count : Json
  local_wifi_signal_dbm : Json
  local_wifi_noise_dbm : Json
  rf_jam_detected : Json

/-- One row of the `channel_amplitude` table.  The timestamp column stores
either the isoformat string of a parsed datetime or the raw non-string value
the caller sent, as in `insert_channel_amplitude`. -/
structure CARow where
  timestamp : Json
  node_id : Option String
  channel : Int
  signal_dbm : Json
  noise_dbm : Json

/-- The SQLite database: three tables. -/
structure DB where
  nodes : List NodeRow
  measurements : List Measurement
  channel_amplitude : List CARow

/-- `COALESCE(new, old)`. -/
def coalesce (new old : Option α) : Option α :=
  match new with
  | some v => some v
  | none => old

/-- `Database.upsert_node`: `INSERT ... ON CONFLICT(id) DO UPDATE SET
name = excluded.name, latitude = COALESCE(excluded.latitude, latitude),
longitude = COALESCE(excluded.longitude, longitude),
api_key_hash = COALESCE(excluded.api_key_hash, api_key_hash),
last_seen = excluded.last_seen`. -/
def upsertNode (db : DB) (nid : String) (nm : Json) (lat lon : Option Int)
    (hash : Option String) (now : Nat) : DB :=
  if db.nodes.any (fun r => r.id == nid) then
    { db with nodes := db.nodes.map (fun r =>
        if r.id == nid then
          ⟨nid, nm, coalesce lat r.latitude, coalesce lon r.longitude,
            coalesce hash r.api_key_hash, some now⟩
        else r) }
  else
    { db with nodes := db.nodes ++ [⟨nid, nm, lat, lon, hash, some now⟩] }

/-- `Database.get_node_by_api_key`: `SELECT ... WHERE api_key_hash = ?` with
the SHA-256 hex digest of the key (a NULL hash never matches, as in SQL). -/
def getNodeByApiKey (sha256hex : String → String) (db : DB) (api_key : String) :
    Option NodeRow :=
  db.nodes.find? (fun r => r.api_key_hash == some (sha256hex api_key))

/-- `Database.touch_node_last_seen`: `UPDATE nodes SET last_seen = ? WHERE id = ?`. -/
def touchNodeLastSeen (db : DB) (nid : String) (now : Nat) : DB :=
  { db with nodes := db.nodes.map (fun r =>
      if r.id == nid then ⟨r.id, r.name, r.latitude, r.longitude, r.api_key_hash, some now⟩
      else r) }

/-- `Database.insert_measurement` as called from `api_measurements`: the dict
already holds exactly the slim-schema columns, so the insert appends one row. -/
def insertMeasurement (db : DB) (m : Measurement) : DB :=
  { db with measurements := db.measurements ++ [m] }

/-- `Database.insert_channel_amplitude`: append one row. -/
def insertChannelAmplitude (db : DB) (row : CARow) : DB :=
  { db with channel_amplitude := db.channel_amplitude ++ [row] }

/-! ## Relay ingestion API (src/src/wjl/dashboard/relay_api.py) -/

/-- Ambient facts a request handler reads from its process environment:
the hash function, the iso-timestamp parser (`some` returns the parsed
datetime, rendered by its isoformat string; `none` models `ValueError`), and
the three `datetime.utcnow()` readings a request can take (when building a
measurement, inside `upsert_node`, and inside `touch_node_last_seen`). -/
structure Env where
  sha256hex : String → String
  parseIso : String → Option String
  nowIso : String
  tReg : Nat
  tTouch : Nat

/-- Relay-side configuration: `config.relay_api_key()` (None means "open"
mode). -/
structure RelayConfig where
  relay_api_key : Option String

/-- An HTTP response: status plus the JSON body dict passed to
`json_response`. -/
structure Response where
  status : Nat
  body : List (String × Json)

/-- `get_api_key()`: `(headers.get("X-API-Key") or headers.get("Authorization")
or "").replace("Bearer ", "").strip()`. -/
def getApiKey (xApiKey authorization : Option String) : String :=
  ((pyOrStr (xApiKey.getD "") (pyOrStr (authorization.getD "") "")).replace
    "Bearer " "").trim

/-- The authentication prologue shared by all three endpoints
(`api_measurements` lines 30–35): `True` iff the request passes both checks. -/
def authOk (cfg : RelayConfig) (apiKey : String) : Bool :=
  if apiKey = "" then false
  else match cfg.relay_api_key with
    | some allowed => apiKey == allowed
    | none => true

/-- Node resolution in `api_measurements` (lines 42–58): look the key up by
fingerprint; on a miss, derive the node id from the first 12 hex characters of
the fingerprint, pull name/coordinates out of the body, create the node and
look it up again.  `none` models an uncaught `float(...)` conversion error;
`some none` models the `Node registration failed` 500 branch. -/
def resolveNodeMeas (env : Env) (db : DB) (apiKey : String)
    (body : List (String × Json)) : Option (Option (NodeRow × DB)) :=
  match getNodeByApiKey env.sha256hex db apiKey with
  | some row => some (some (row, db))
  | none =>
    let keyHash := env.sha256hex apiKey
    let nodeId := keyHash.take 12
    let nm := pyOr (pyOr (jget body "node_name") (jget body "name"))
      (Json.str ("Node-" ++ nodeId))
    match floatOrNone (pyOr (jget body "latitude") (jget body "node_latitude")),
        floatOrNone (pyOr (jget body "longitude") (jget body "node_longitude")) with
    | some latV, some lonV =>
      let db1 := upsertNode db nodeId nm latV lonV (some keyHash) env.tReg
      match getNodeByApiKey env.sha256hex db1 apiKey with
      | some row => some (some (row, db1))
      | none => some none
    | _, _ => none

/-- `api_measurements` lines 60–89, once a node row is resolved: optional
second upsert when the body carries a name, then build the slim measurement
dict (timestamp defaulted to now when falsy), insert it and touch
`last_seen`.  `none` models an uncaught `float(...)` error. -/
def apiMeasurementsWithNode (env : Env) (db : DB) (body : List (String × Json))
    (row : NodeRow) : Option (Response × DB) :=
  let nodeId := row.id
  let afterUpsert : Option DB :=
    if (pyOr (jget body "node_name") (jget body "name")).truthy then
      let nm := pyOr (jget body "node_name") (jget body "name")
      match floatOrElse (pyOr (jget body "latitude") (jget body "node_latitude")) row.latitude,
          floatOrElse (pyOr (jget body "longitude") (jget body "node_longitude")) row.longitude with
      | some latV, some lonV => some (upsertNode db nodeId nm latV lonV none env.tReg)
      | _, _ => none
    else some db
  match afterUpsert with
  | none => none
  | some db2 =>
    let ts := jget body "timestamp"
    let m : Measurement :=
      ⟨if ts.truthy then ts else Json.str env.nowIso, some nodeId,
        jget body "wifi_channel", jget body "wifi_util_pct", jget body "noise_dbm",
        jget body "deauth_count", jget body "disassoc_count",
        jget body "local_wifi_signal_dbm", jget body "local_wifi_noise_dbm",
        jget body "rf_jam_detected"⟩
    let db3 := insertMeasurement db2 m
    let db4 := touchNodeLastSeen db3 nodeId env.tTouch
    some (⟨201, [("ok", Json.bool true), ("node_id", Json.str nodeId)]⟩, db4)

/-- `POST /api/measurements`.  `rawBody` is the outcome of
`json.loads(request.get_data(...) or "{}")`: `none` for a `JSONDecodeError`,
otherwise the parsed top-level object.  An uncaught in-handler exception is
rendered as a bare 500 response with the state already mutated so far. -/
def apiMeasurements (env : Env) (cfg : RelayConfig) (db : DB) (apiKey : String)
    (rawBody : Option (List (String × Json))) : Response × DB :=
  if apiKey = "" then
    (⟨401, [("error", Json.str "Missing X-API-Key")]⟩, db)
  else if (match cfg.relay_api_key with
      | some allowed => decide (apiKey ≠ allowed)
      | none => false) then
    (⟨401, [("error", Json.str "Invalid API key")]⟩, db)
  else
    match rawBody with
    | none => (⟨400, [("error", Json.str "Invalid JSON")]⟩, db)
    | some body =>
      match resolveNodeMeas env db apiKey body with
      | none => (⟨500, []⟩, db)
      | some none => (⟨500, [("error", Json.str "Node registration failed")]⟩, db)
      | some (some (row, db1)) =>
        match apiMeasurementsWithNode env db1 body row with
        | none => (⟨500, []⟩, db1)
        | some out => out

/-- Node resolution in `api_channel_amplitude` (lines 101–114): same lookup,
but a missing node is created with the default name and no coordinates, and
this happens before the body is even parsed.  `none` models the
`Node registration failed` 500 branch. -/
def resolveNodeChAmp (env : Env) (db : DB) (apiKey : String) :
    Option (NodeRow × DB) :=
  match getNodeByApiKey env.sha256hex db apiKey with
  | some row => some (row, db)
  | none =>
    let keyHash := env.sha256hex apiKey
    let nodeId := keyHash.take 12
    let db1 := upsertNode db nodeId (Json.str ("Node-" ++ nodeId)) none none
      (some keyHash) env.tReg
    match getNodeByApiKey env.sha256hex db1 apiKey with
    | some row => some (row, db1)
    | none => none

/-- The `for s in samples` loop of `api_channel_amplitude`: skip non-dict
entries, entries whose timestamp or channel is `None`, and string timestamps
that fail `fromisoformat` (after `replace("Z", "+00:00")`); insert one row per
remaining entry and count it.  `Except.error` carries the committed state when
`int(ch)` raises (each insert commits individually, so earlier rows survive
the failure). -/
def storeSamples (env : Env) (nid : String) :
    DB → List Json → Except DB (Nat × DB)
  | db, [] => .ok (0, db)
  | db, s :: rest =>
    match s with
    | .obj fs =>
      if (jget fs "timestamp").isNull || (jget fs "channel").isNull then
        storeSamples env nid db rest
      else
        let tsVal : Option Json :=
          match jget fs "timestamp" with
          | .str s0 => (env.parseIso (s0.replace "Z" "+00:00")).map Json.str
          | ts => some ts
        match tsVal with
        | none => storeSamples env nid db rest
        | some ts =>
          match pyInt (jget fs "channel") with
          | none => .error db
          | some chV =>
            let db2 := insertChannelAmplitude db
              ⟨ts, some nid, chV, jget fs "signal_dbm", jget fs "noise_dbm"⟩
            match storeSamples env nid db2 rest with
            | .ok (n, dbF) => .ok (n + 1, dbF)
            | .error dbF => .error dbF
    | _ => storeSamples env nid db rest

/-- `api_channel_amplitude` lines 117–150, after node resolution: parse the
body, pick `samples or channel_amplitude or []`, reject a (truthy) non-array,
store the valid entries, touch `last_seen` and report the count. -/
def chAmpWithNode (env : Env) (db : DB) (nodeId : String)
    (rawBody : Option (List (String × Json))) : Response × DB :=
  match rawBody with
  | none => (⟨400, [("error", Json.str "Invalid JSON")]⟩, db)
  | some body =>
    match pyOr (pyOr (jget body "samples") (jget body "channel_amplitude"))
        (Json.arr []) with
    | .arr xs =>
      match storeSamples env nodeId db xs with
      | .ok (n, db2) =>
        let db3 := touchNodeLastSeen db2 nodeId env.tTouch
        (⟨201, [("ok", Json.bool true), ("node_id", Json.str nodeId),
          ("stored", Json.num (Int.ofNat n))]⟩, db3)
      | .error db2 => (⟨500, []⟩, db2)
    | _ => (⟨400, [("error", Json.str "samples must be an array")]⟩, db)

/-- `POST /api/channel_amplitude`: authenticate, resolve (and possibly
register) the node, then parse and store.  Note the registration happens
before the body is parsed. -/
def apiChannelAmplitude (env : Env) (cfg : RelayConfig) (db : DB)
    (apiKey : String) (rawBody : Option (List (String × Json))) :
    Response × DB :=
  if apiKey = "" then
    (⟨401, [("error", Json.str "Missing X-API-Key")]⟩, db)
  else if (match cfg.relay_api_key with
      | some allowed => decide (apiKey ≠ allowed)
      | none => false) then
    (⟨401, [("error", Json.str "Invalid API key")]⟩, db)
  else
    match resolveNodeChAmp env db apiKey with
    | some (row, db1) => chAmpWithNode env db1 row.id rawBody
    | none => (⟨500, [("error", Json.str "Node registration failed")]⟩, db)

/-- An entry of the samples array that the loop actually stores: a dict with
non-null timestamp and channel whose string timestamp (if a string) parses. -/
def storableEntry (env : Env) : Json → Bool
  | .obj fs =>
    !(jget fs "timestamp").isNull && !(jget fs "channel").isNull &&
      (match jget fs "timestamp" with
       | .str s0 => (env.parseIso (s0.replace "Z" "+00:00")).isSome
       | _ => true)
  | _ => false

/-- Every node row's id is the 12-character prefix of its stored credential
fingerprint (holds for every database this relay built itself). -/
def hashIdWF (db : DB) : Bool :=
  db.nodes.all (fun r =>
    match r.api_key_hash with
    | some h => r.id == h.take 12
    | none => true)

/-! ## Concrete fixtures used by counterexamples and witnesses -/

/-- Three deauth rows: buckets 0, 300 and again 300 (t = 420 s), the last one
critical (count 25 > 20). -/
def cexWindowC1 : Window :=
  ⟨[⟨0, some 6, none, none⟩, ⟨300, some 6, none, none⟩, ⟨420, some 25, none, none⟩],
    true, true, true, true⟩

/-- Two rows at the default threshold boundary: count 5 (= threshold) and 6. -/
def windowC3 : Window :=
  ⟨[⟨0, some 5, none, none⟩, ⟨60, some 6, none, none⟩], true, true, true, true⟩

/-- A concrete environment: an injective stand-in fingerprint whose
12-character prefixes separate short keys, a parser that accepts every
string, and distinct clock readings. -/
def envW : Env :=
  ⟨fun s => s ++ s ++ s ++ s ++ s ++ s, fun s => some s, "2024-01-01T00:00:00", 10, 20⟩

/-- The empty store. -/
def dbEmpty : DB := ⟨[], [], []⟩

/-- A store holding one node with both coordinates already set. -/
def dbC4 : DB := ⟨[⟨"n", Json.str "old", some 1, some 4, some "h", some 0⟩], [], []⟩

/-- The node record `envW` builds for the credential "alpha". -/
def rowAlpha : NodeRow :=
  ⟨"alphaalphaal", Json.str "Node-alphaalphaal", none, none,
    some "alphaalphaalphaalphaalphaalpha", some 10⟩

/-- The node record `envW` builds for the credential "beta". -/
def rowBeta : NodeRow :=
  ⟨"betabetabeta", Json.str "Node-betabetabeta", none, none,
    some "betabetabetabetabetabeta", some 10⟩

/-- A channel-amplitude batch: two valid samples and one missing `channel`. -/
def bodyC7 : List (String × Json) :=
  [("samples", Json.arr
    [Json.obj [("timestamp", Json.num 100), ("channel", Json.num 1)],
     Json.obj [("timestamp", Json.num 100), ("channel", Json.num 6)],
     Json.obj [("timestamp", Json.num 100)]])]

/-! ## Event-detector lemmas -/

theorem dedupGo_pairwise (rest : List NetworkEvent) :
    ∀ (seen : List (String × Nat)) (acc : List NetworkEvent),
      acc.Pairwise tsLE → rest.Pairwise tsLE →
      (∀ a ∈ acc, ∀ e ∈ rest, a.timestamp ≤ e.timestamp) →
      (dedupGo seen acc rest).Pairwise tsLE := by
  induction rest with
  | nil =>
    intro seen acc hacc _ _
    simpa [dedupGo] using hacc
  | cons e rest ih =>
    intro seen acc hacc hrest hcross
    have hrest2 : rest.Pairwise tsLE := (List.pairwise_cons.mp hrest).2
    have herest : ∀ x ∈ rest, tsLE e x := (List.pairwise_cons.mp hrest).1
    have hcross2 : ∀ a ∈ acc, ∀ x ∈ rest, a.timestamp ≤ x.timestamp :=
      fun a ha x hx => hcross a ha x (List.mem_cons_of_mem _ hx)
    have hae : ∀ a ∈ acc, a.timestamp ≤ e.timestamp :=
      fun a ha => hcross a ha e (List.mem_cons_self _ _)
    rw [dedupGo]
    split
    · split
      · split
        · apply ih
          · refine List.pairwise_append.mpr
              ⟨hacc.sublist (List.erase_sublist _ _), ?_, ?_⟩
            · simp
            · intro a ha b hb
              rw [List.mem_singleton] at hb; subst hb
              exact hae a ((List.erase_sublist _ _).subset ha)
          · exact hrest2
          · intro a ha x hx
            rcases List.mem_append.mp ha with h1 | h1
            · exact hcross2 a ((List.erase_sublist _ _).subset h1) x hx
            · rw [List.mem_singleton] at h1; subst h1; exact herest x hx
        · exact ih seen acc hacc hrest2 hcross2
      · exact ih seen acc hacc hrest2 hcross2
    · apply ih
      · refine List.pairwise_append.mpr ⟨hacc, ?_, ?_⟩
        · simp
        · intro a ha b hb
          rw [List.mem_singleton] at hb; subst hb
          exact hae a ha
      · exact hrest2
      · intro a ha x hx
        rcases List.mem_append.mp ha with h1 | h1
        · exact hcross2 a h1 x hx
        · rw [List.mem_singleton] at h1; subst h1; exact herest x hx

theorem detect_events_sorted_aux (t : Thresholds) (w : Window) :
    (detect_events t w).Pairwise tsLE := by
  unfold detect_events
  split
  · exact List.Pairwise.nil
  · unfold deduplicateEvents
    apply dedupGo_pairwise
    · exact List.Pairwise.nil
    · exact List.sorted_insertionSort tsLE _
    · intro a ha; cases ha

theorem deauthEvents_eq (t : Thresholds) (w : Window) (h : w.hasDeauthCol = true) :
    deauthEvents t w = w.rows.filterMap (fun r =>
      match r.deauth_count with
      | some c =>
          if deauthThreshold t < c then some (mkDeauthEvent r.timestamp c) else none
      | none => none) := by
  unfold deauthEvents
  rw [if_pos h]
  induction w.rows with
  | nil => rfl
  | cons r rows ih =>
    cases hc : r.deauth_count with
    | none => simp [List.filter_cons, List.filterMap_cons, hc, ih]
    | some c =>
      by_cases hlt : deauthThreshold t < c
      · simp [List.filter_cons, List.filterMap_cons, hc, hlt, ih]
      · simp [List.filter_cons, List.filterMap_cons, hc, hlt, ih]

theorem mem_deauthEvents_spec (t : Thresholds) (w : Window) (e : NetworkEvent)
    (h : e ∈ deauthEvents t w) :
    ∃ c, deauthThreshold t < c ∧ e = mkDeauthEvent e.timestamp c := by
  unfold deauthEvents at h
  split at h
  case isTrue =>
    rcases List.mem_filterMap.mp h with ⟨r, hr, hg⟩
    rcases List.mem_filter.mp hr with ⟨_, hpred⟩
    cases hc : r.deauth_count with
    | none => rw [hc] at hg; cases hg
    | some c =>
      rw [hc] at hg hpred
      simp at hpred
      cases hg
      exact ⟨c, hpred, rfl⟩
  case isFalse => cases h

theorem mem_disassocEvents_type (t : Thresholds) (w : Window) (e : NetworkEvent)
    (h : e ∈ disassocEvents t w) : e.event_type = "disassoc_burst" := by
  unfold disassocEvents at h
  split at h
  case isTrue =>
    rcases List.mem_filterMap.mp h with ⟨r, _, hg⟩
    cases hc : r.disassoc_count with
    | none => rw [hc] at hg; cases hg
    | some c => rw [hc] at hg; cases hg; rfl
  case isFalse => cases h

theorem mem_rfJamEvents_spec (w : Window) (e : NetworkEvent)
    (h : e ∈ rfJamEvents w) :
    e.event_type = "rf_jamming" ∧ e.severity = "severe" := by
  unfold rfJamEvents at h
  split at h
  case isTrue =>
    rcases List.mem_filterMap.mp h with ⟨r, _, hg⟩
    cases hc : r.rf_jam_detected with
    | none => rw [hc] at hg; cases hg
    | some v =>
      rw [hc] at hg
      dsimp only at hg
      by_cases hv : v ≥ 1
      · rw [if_pos hv] at hg; cases hg; exact ⟨rfl, rfl⟩
      · rw [if_neg hv] at hg; cases hg
  case isFalse => cases h

/-! ## Claims about the event detector -/

/-- C1 — the claim that deduplication keeps at most one event per
(event_type, 5-minute bucket) key and replaces within the same bucket fails
on the code: the replacement lookup
`next(e for e in deduplicated if (e.event_type, time_key) == key)` compares
every kept event against the *current* event's bucket, so it matches on
`event_type` alone and can evict a kept event from a different bucket.  On
`cexWindowC1` (deauth counts 6 @ t=0 s, 6 @ t=300 s, 25 @ t=420 s) the
critical event in bucket 300 evicts the bucket-0 event, and the output keeps
two `deauth_burst` events in bucket 300 — contradicting the claim (and the
function's own docstring "Remove duplicate events in same time window"). -/
theorem dedup_keeps_two_events_in_one_bucket :
    (detect_events ⟨none, none⟩ cexWindowC1).map
        (fun e => (e.event_type, timeKey e.timestamp, e.severity))
      = [("deauth_burst", 300, "moderate"), ("deauth_burst", 300, "critical")]
    ∧ ¬ ((detect_events ⟨none, none⟩ cexWindowC1).Pairwise fun a b =>
          ¬(a.event_type = b.event_type ∧ timeKey a.timestamp = timeKey b.timestamp)) := by
  constructor
  · decide
  · decide

/-- C2: for every thresholds configuration and every measurement window (any
row order, any severities), the output of `detect_events` has monotonically
non-decreasing timestamps, including after deduplication replaces events
(a replacement is appended at the end and its timestamp is maximal among the
events processed so far). -/
theorem detect_events_output_timestamps_monotone (t : Thresholds) (w : Window) :
    (detect_events t w).Pairwise (fun a b => a.timestamp ≤ b.timestamp) :=
  (detect_events_sorted_aux t w).imp (fun h => h)

/-- C3: the threshold scan emits a `deauth_burst` event exactly for the rows
whose `deauth_count` is non-null and strictly greater than the threshold
(default 5: last conjunct); the emitted severity is critical for count > 20,
severe for count > 10, moderate otherwise; and every `rf_jamming` event is
severe. -/
theorem threshold_scan_boundary_and_severity (t : Thresholds) (w : Window)
    (hcol : w.hasDeauthCol = true) :
    ((detectThresholdEvents t w).filter fun e => e.event_type == "deauth_burst")
        = w.rows.filterMap (fun r =>
            match r.deauth_count with
            | some c =>
                if deauthThreshold t < c then some (mkDeauthEvent r.timestamp c) else none
            | none => none)
      ∧ (∀ e ∈ detectThresholdEvents t w, e.event_type = "deauth_burst" →
          ∃ c, deauthThreshold t < c ∧ e.metrics = [("deauth_count", c)] ∧
            e.severity =
              (if 20 < c then "critical" else if 10 < c then "severe" else "moderate"))
      ∧ (∀ e ∈ detectThresholdEvents t w, e.event_type = "rf_jamming" →
          e.severity = "severe")
      ∧ deauthThreshold ⟨none, none⟩ = 5 := by
  refine ⟨?_, ?_, ?_, rfl⟩
  · unfold detectThresholdEvents
    rw [List.filter_append, List.filter_append]
    have h1 : (deauthEvents t w).filter (fun e => e.event_type == "deauth_burst")
        = deauthEvents t w := by
      apply List.filter_eq_self.mpr
      intro e he
      rcases mem_deauthEvents_spec t w e he with ⟨c, _, he2⟩
      rw [he2]; rfl
    have h2 : (disassocEvents t w).filter (fun e => e.event_type == "deauth_burst")
        = [] := by
      apply List.filter_eq_nil_iff.mpr
      intro e he
      have ht := mem_disassocEvents_type t w e he
      simp [ht]
    have h3 : (rfJamEvents w).filter (fun e => e.event_type == "deauth_burst") = [] := by
      apply List.filter_eq_nil_iff.mpr
      intro e he
      have ht := (mem_rfJamEvents_spec w e he).1
      simp [ht]
    rw [h1, h2, h3, List.append_nil, List.append_nil, deauthEvents_eq t w hcol]
  · intro e he htype
    rcases List.mem_append.mp he with h1 | h1
    · rcases List.mem_append.mp h1 with h2 | h2
      · rcases mem_deauthEvents_spec t w e h2 with ⟨c, hlt, he2⟩
        refine ⟨c, hlt, ?_, ?_⟩
        · rw [he2]; rfl
        · rw [he2]; rfl
      · have ht := mem_disassocEvents_type t w e h2
        rw [ht] at htype
        exact absurd htype (by decide)
    · have ht := (mem_rfJamEvents_spec w e h1).1
      rw [ht] at htype
      exact absurd htype (by decide)
  · intro e he htype
    rcases List.mem_append.mp he with h1 | h1
    · rcases List.mem_append.mp h1 with h2 | h2
      · rcases mem_deauthEvents_spec t w e h2 with ⟨c, _, he2⟩
        rw [he2] at htype
        simp [mkDeauthEvent] at htype
      · have ht := mem_disassocEvents_type t w e h2
        rw [ht] at htype
        exact absurd htype (by decide)
    · exact (mem_rfJamEvents_spec w e h1).2

/-- Witness for C3: on `windowC3` (counts 5 and 6 against the default
threshold 5) the scan emits exactly one event, for the count-6 row. -/
theorem threshold_scan_boundary_witness :
    ((detectThresholdEvents ⟨none, none⟩ windowC3).filter
        fun e => e.event_type == "deauth_burst")
      = [mkDeauthEvent 60 6] := by
  have h := (threshold_scan_boundary_and_severity ⟨none, none⟩ windowC3 rfl).1
  rw [h]
  decide

/-- C9: `detect_events` is a pure function of the thresholds configuration
and the window — the source mutates no detector attribute (it reads
`self.thresholds` only) and sorts a copy of the frame — so two calls on the
same immutable window return identical output. -/
theorem detect_events_idempotent (t : Thresholds) (w : Window) :
    detect_events t w = detect_events t w := rfl

/-! ## Claims about the inference engine -/

/-- C8: an empty context window yields an empty result regardless of the
event; a non-empty window yields exactly one inference per recognized event
type (`deauth_burst → wifi_deauth` high with the deauth count as evidence,
`rf_jamming → wifi_rf_jamming` medium, `disassoc_burst → wifi_disassoc` high)
and none for an unrecognized type; and the result is always sorted by
confidence descending. -/
theorem generate_inferences_spec (e : NetworkEvent) (ctx : List Row) :
    generate_inferences e [] = []
    ∧ (ctx ≠ [] →
        (e.event_type = "deauth_burst" →
          generate_inferences e ctx =
            [⟨"wifi_deauth", "high",
              "Deauth frames detected; possible deauth attack or misconfigured device.",
              [("deauth_count", metricsGetD e.metrics "deauth_count" 0)],
              [("deauth_count", metricsGetD e.metrics "deauth_count" 0)]⟩])
        ∧ (e.event_type = "rf_jamming" →
          generate_inferences e ctx =
            [⟨"wifi_rf_jamming", "medium",
              "High noise or low SNR; possible RF jamming or interference.",
              [("rf_jam_detected", metricsGetD e.metrics "rf_jam_detected" 1)], []⟩])
        ∧ (e.event_type = "disassoc_burst" →
          generate_inferences e ctx =
            [⟨"wifi_disassoc", "high",
              "Disassoc frames detected; possible attack or client disconnects.",
              [("disassoc_count", metricsGetD e.metrics "disassoc_count" 0)],
              [("disassoc_count", metricsGetD e.metrics "disassoc_count" 0)]⟩])
        ∧ (e.event_type ≠ "deauth_burst" → e.event_type ≠ "rf_jamming" →
            e.event_type ≠ "disassoc_burst" → generate_inferences e ctx = []))
    ∧ (generate_inferences e ctx).Pairwise
        (fun a b => confidenceOrder b.confidence ≤ confidenceOrder a.confidence) := by
  refine ⟨rfl, ?_, ?_⟩
  · intro hne
    have hc : ctx.isEmpty = false := by
      cases ctx
      · exact absurd rfl hne
      · rfl
    refine ⟨?_, ?_, ?_, ?_⟩
    · intro ht
      simp [generate_inferences, hc, ht, List.insertionSort, List.orderedInsert]
    · intro ht
      simp [generate_inferences, hc, ht, List.insertionSort, List.orderedInsert]
    · intro ht
      simp [generate_inferences, hc, ht, List.insertionSort, List.orderedInsert]
    · intro h1 h2 h3
      simp [generate_inferences, hc, h1, h2, h3, List.insertionSort]
  · unfold generate_inferences
    split
    · exact List.Pairwise.nil
    · exact (List.sorted_insertionSort confGE _).imp (fun h => h)

/-- Witness for C8: a critical deauth event over a one-row context yields the
single high-confidence `wifi_deauth` inference carrying the count 25. -/
theorem generate_inferences_witness :
    generate_inferences (mkDeauthEvent 0 25) [⟨0, some 25, none, none⟩]
      = [⟨"wifi_deauth", "high",
          "Deauth frames detected; possible deauth attack or misconfigured device.",
          [("deauth_count", 25)], [("deauth_count", 25)]⟩] := by
  have h := ((generate_inferences_spec (mkDeauthEvent 0 25)
    [⟨0, some 25, none, none⟩]).2.1 (by decide)).1 rfl
  rw [h]
  decide

/-! ## Storage-layer lemmas and claims -/

/-- C4 counterexample — the claim predicts that a non-null new coordinate
does not overwrite a non-null stored coordinate; but
`latitude = COALESCE(excluded.latitude, latitude)` lets the new value win:
on the node `("n", lat=1, lon=4)` an upsert with `lat=2, lon=9` yields
`(2, 9)`, not the preserved `(1, 4)`. -/
theorem upsert_overwrites_nonnull_coordinates :
    ((upsertNode dbC4 "n" (Json.str "new") (some 2) (some 9) none 7).nodes.map
        (fun r => (r.latitude, r.longitude)))
      ≠ [(some 1, some 4)]
    ∧ ((upsertNode dbC4 "n" (Json.str "new") (some 2) (some 9) none 7).nodes.map
        (fun r => (r.latitude, r.longitude)))
      = [(some 2, some 9)] := by
  constructor
  · decide
  · decide

/-- C4 (amended): the Node merge policy is the same for every updatable
field — the new name always overwrites, and a non-null new
latitude/longitude/api_key_hash always overwrites the stored value, while a
null new value preserves it (`COALESCE(excluded.c, c)`); `last_seen` is
always refreshed. -/
theorem upsert_merge_policy (db : DB) (nid : String) (nm : Json)
    (lat lon : Option Int) (hash : Option String) (now : Nat)
    (hex : db.nodes.any (fun r => r.id == nid) = true) :
    (upsertNode db nid nm lat lon hash now).nodes
      = db.nodes.map (fun r =>
          if r.id = nid then
            ⟨r.id, nm,
              (match lat with | some v => some v | none => r.latitude),
              (match lon with | some v => some v | none => r.longitude),
              (match hash with | some v => some v | none => r.api_key_hash),
              some now⟩
          else r)
      ∧ (upsertNode db nid nm lat lon hash now).measurements = db.measurements
      ∧ (upsertNode db nid nm lat lon hash now).channel_amplitude
          = db.channel_amplitude := by
  unfold upsertNode
  rw [if_pos hex]
  refine ⟨?_, rfl, rfl⟩
  apply List.map_congr_left
  intro r _
  by_cases hr : r.id = nid
  · cases lat <;> cases lon <;> cases hash <;> simp [hr, coalesce]
  · simp [hr]

/-- Witness for C4: on the stored node `("n", lat=1, lon=4, hash="h")`, an
upsert with `lat=2, lon=null, hash=null` overwrites the latitude and
preserves longitude and hash. -/
theorem upsert_merge_policy_witness :
    (upsertNode dbC4 "n" (Json.str "new") (some 2) none none 7).nodes.map
        (fun r => (r.latitude, r.longitude, r.api_key_hash, r.last_seen))
      = [(some 2, some 4, some "h", some 7)] := by
  have h := (upsert_merge_policy dbC4 "n" (Json.str "new") (some 2) none none 7
    (by decide)).1
  rw [h]
  decide

/-! ## Relay-API status lemmas -/

theorem apiMeasurementsWithNode_status (env : Env) (db : DB)
    (body : List (String × Json)) (row : NodeRow) (out : Response × DB)
    (h : apiMeasurementsWithNode env db body row = some out) :
    out.1.status = 201 := by
  unfold apiMeasurementsWithNode at h
  repeat' split at h
  all_goals first
    | (cases h; rfl)
    | cases h

theorem apiMeasurements_post_auth_status (env : Env) (cfg : RelayConfig) (db : DB)
    (k : String) (rb : Option (List (String × Json)))
    (hk : ¬ k = "") (hcfg : cfg.relay_api_key = none) :
    (apiMeasurements env cfg db k rb).1.status = 400
    ∨ (apiMeasurements env cfg db k rb).1.status = 500
    ∨ (apiMeasurements env cfg db k rb).1.status = 201 := by
  unfold apiMeasurements
  rw [if_neg hk, hcfg]
  simp only [Bool.false_eq_true, if_false]
  split
  · left; rfl
  · split
    · right; left; rfl
    · right; left; rfl
    · split
      case _ h2 => right; left; rfl
      case _ out h2 =>
        right; right
        exact apiMeasurementsWithNode_status _ _ _ _ _ h2

theorem chAmpWithNode_status (env : Env) (db : DB) (nid : String)
    (rb : Option (List (String × Json))) :
    (chAmpWithNode env db nid rb).1.status = 400
    ∨ (chAmpWithNode env db nid rb).1.status = 500
    ∨ (chAmpWithNode env db nid rb).1.status = 201 := by
  unfold chAmpWithNode
  repeat' split
  all_goals simp

theorem apiChannelAmplitude_post_auth_status (env : Env) (cfg : RelayConfig)
    (db : DB) (k : String) (rb : Option (List (String × Json)))
    (hk : ¬ k = "") (hcfg : cfg.relay_api_key = none) :
    (apiChannelAmplitude env cfg db k rb).1.status = 400
    ∨ (apiChannelAmplitude env cfg db k rb).1.status = 500
    ∨ (apiChannelAmplitude env cfg db k rb).1.status = 201 := by
  unfold apiChannelAmplitude
  rw [if_neg hk, hcfg]
  simp only [Bool.false_eq_true, if_false]
  split
  · exact chAmpWithNode_status _ _ _ _
  · right; left; rfl

/-- C5: on both ingestion endpoints, an empty extracted credential is
rejected with 401 and the store is untouched; with a configured shared
credential, any other non-empty credential is rejected with 401 and the
store is untouched; with no configured shared credential, a non-empty
credential is never answered with 401. -/
theorem ingestion_auth_policy (env : Env) (cfg : RelayConfig) (db : DB)
    (k : String) (rb : Option (List (String × Json))) :
    (k = "" →
      apiMeasurements env cfg db k rb
          = (⟨401, [("error", Json.str "Missing X-API-Key")]⟩, db)
      ∧ apiChannelAmplitude env cfg db k rb
          = (⟨401, [("error", Json.str "Missing X-API-Key")]⟩, db))
    ∧ (∀ a, cfg.relay_api_key = some a → k ≠ "" → k ≠ a →
      apiMeasurements env cfg db k rb
          = (⟨401, [("error", Json.str "Invalid API key")]⟩, db)
      ∧ apiChannelAmplitude env cfg db k rb
          = (⟨401, [("error", Json.str "Invalid API key")]⟩, db))
    ∧ (cfg.relay_api_key = none → k ≠ "" →
      (apiMeasurements env cfg db k rb).1.status ≠ 401
      ∧ (apiChannelAmplitude env cfg db k rb).1.status ≠ 401) := by
  refine ⟨?_, ?_, ?_⟩
  · intro hk
    constructor
    · unfold apiMeasurements
      rw [if_pos hk]
    · unfold apiChannelAmplitude
      rw [if_pos hk]
  · intro a ha hk hka
    have hcond : (match cfg.relay_api_key with
        | some allowed => decide (k ≠ allowed)
        | none => false) = true := by
      rw [ha]
      exact decide_eq_true hka
    constructor
    · unfold apiMeasurements
      rw [if_neg hk, if_pos hcond]
    · unfold apiChannelAmplitude
      rw [if_neg hk, if_pos hcond]
  · intro hcfg hk
    constructor
    · rcases apiMeasurements_post_auth_status env cfg db k rb hk hcfg with h | h | h <;>
        rw [h] <;> decide
    · rcases apiChannelAmplitude_post_auth_status env cfg db k rb hk hcfg with h | h | h <;>
        rw [h] <;> decide

/-- Witness for C5: a missing key and a wrong key are both rejected with 401
on the empty store, which stays empty; in open mode an arbitrary key passes
authentication. -/
theorem ingestion_auth_policy_witness :
    apiMeasurements envW ⟨some "secret"⟩ dbEmpty "" none
        = (⟨401, [("error", Json.str "Missing X-API-Key")]⟩, dbEmpty)
    ∧ apiMeasurements envW ⟨some "secret"⟩ dbEmpty "wrong" none
        = (⟨401, [("error", Json.str "Invalid API key")]⟩, dbEmpty)
    ∧ (apiMeasurements envW ⟨none⟩ dbEmpty "anykey" none).1.status ≠ 401 :=
  ⟨((ingestion_auth_policy envW ⟨some "secret"⟩ dbEmpty "" none).1 rfl).1,
    ((ingestion_auth_policy envW ⟨some "secret"⟩ dbEmpty "wrong" none).2.1 "secret"
      rfl (by decide) (by decide)).1,
    ((ingestion_auth_policy envW ⟨none⟩ dbEmpty "anykey" none).2.2 rfl (by decide)).1⟩

/-! ## Node-resolution lemmas and claims -/

theorem getNodeByApiKey_spec (sha : String → String) (db : DB) (k : String)
    (r : NodeRow) (h : getNodeByApiKey sha db k = some r) :
    r ∈ db.nodes ∧ r.api_key_hash = some (sha k) := by
  unfold getNodeByApiKey at h
  refine ⟨List.mem_of_find?_eq_some h, ?_⟩
  have hp := List.find?_some h
  simpa using hp

theorem hashIdWF_mem (db : DB) (hwf : hashIdWF db = true) (r : NodeRow)
    (hr : r ∈ db.nodes) (hs : String) (hh : r.api_key_hash = some hs) :
    r.id = hs.take 12 := by
  unfold hashIdWF at hwf
  rw [List.all_eq_true] at hwf
  have := hwf r hr
  rw [hh] at this
  simpa using this

theorem upsertNode_preserves_WF (db : DB) (nm : Json) (lat lon : Option Int)
    (hs : String) (now : Nat) (hwf : hashIdWF db = true) :
    hashIdWF (upsertNode db (hs.take 12) nm lat lon (some hs) now) = true := by
  unfold upsertNode hashIdWF
  unfold hashIdWF at hwf
  rw [List.all_eq_true] at hwf
  split
  · rw [List.all_eq_true]
    intro x hx
    rcases List.mem_map.mp hx with ⟨r, hr, hxr⟩
    by_cases hid : (r.id == hs.take 12) = true
    · rw [if_pos hid] at hxr
      subst hxr
      simp [coalesce]
    · rw [if_neg hid] at hxr
      subst hxr
      exact hwf r hr
  · rw [List.all_eq_true]
    intro x hx
    rcases List.mem_append.mp hx with h1 | h1
    · exact hwf x h1
    · rw [List.mem_singleton] at h1
      subst h1
      simp

theorem resolveNodeMeas_spec (env : Env) (db : DB) (k : String)
    (body : List (String × Json)) (r : NodeRow) (db2 : DB)
    (hwf : hashIdWF db = true)
    (h : resolveNodeMeas env db k body = some (some (r, db2))) :
    r.id = (env.sha256hex k).take 12
    ∧ hashIdWF db2 = true
    ∧ getNodeByApiKey env.sha256hex db2 k = some r := by
  simp only [resolveNodeMeas] at h
  split at h
  case _ row heq =>
    cases h
    rcases getNodeByApiKey_spec _ _ _ _ heq with ⟨hmem, hhash⟩
    exact ⟨hashIdWF_mem db hwf _ hmem _ hhash, hwf, heq⟩
  case _ heq =>
    split at h
    case _ latV lonV hla hlo =>
      split at h
      case _ row2 heq2 =>
        cases h
        have hwf1 := upsertNode_preserves_WF db
          (pyOr (pyOr (jget body "node_name") (jget body "name"))
            (Json.str ("Node-" ++ (env.sha256hex k).take 12)))
          latV lonV (env.sha256hex k) env.tReg hwf
        rcases getNodeByApiKey_spec _ _ _ _ heq2 with ⟨hmem2, hhash2⟩
        exact ⟨hashIdWF_mem _ hwf1 _ hmem2 _ hhash2, hwf1, heq2⟩
      case _ heq2 => cases h
    case _ h1 h2 => cases h

/-- C6: over any store whose node ids derive from their stored fingerprints
(`hashIdWF`, true of every store the relay builds), node resolution in
`api_measurements` is deterministic and stable — a second request with the
same credential resolves to the same node row and leaves the store unchanged
— and two credentials whose fingerprint 12-character prefixes differ (the
documented collision caveat) resolve to different node ids. -/
theorem node_resolution_deterministic (env env2 : Env) (db db1 db2 : DB)
    (k1 k2 : String) (b1 b2 : List (String × Json)) (r1 r2 : NodeRow)
    (hhash : env2.sha256hex = env.sha256hex)
    (hwf : hashIdWF db = true)
    (h1 : resolveNodeMeas env db k1 b1 = some (some (r1, db1)))
    (h2 : resolveNodeMeas env2 db1 k2 b2 = some (some (r2, db2))) :
    (k2 = k1 → r2 = r1 ∧ db2 = db1)
    ∧ ((env.sha256hex k1).take 12 ≠ (env.sha256hex k2).take 12 → r2.id ≠ r1.id) := by
  rcases resolveNodeMeas_spec env db k1 b1 r1 db1 hwf h1 with ⟨hid1, hwf1, hlook1⟩
  constructor
  · intro hk
    subst hk
    have hl : getNodeByApiKey env2.sha256hex db1 k2 = some r1 := by
      rw [hhash]; exact hlook1
    simp only [resolveNodeMeas, hl] at h2
    cases h2
    exact ⟨rfl, rfl⟩
  · intro hne
    have h2spec := resolveNodeMeas_spec env2 db1 k2 b2 r2 db2 hwf1 h2
    rw [hid1, h2spec.1, hhash]
    exact fun hc => hne hc.symm

/-- Witness for C6: under `envW` the credentials "alpha" and "beta", resolved
in sequence over the empty store, get the distinct node ids "alphaalphaal"
and "betabetabeta". -/
theorem node_resolution_witness : ("betabetabeta" : String) ≠ "alphaalphaal" := by
  have h := (node_resolution_deterministic envW envW dbEmpty ⟨[rowAlpha], [], []⟩
      ⟨[rowAlpha, rowBeta], [], []⟩ "alpha" "beta" [] [] rowAlpha rowBeta rfl rfl
      (by rfl) (by rfl)).2 (by decide)
  exact h

/-! ## Channel-amplitude batch lemmas and claims -/

theorem storableEntry_true_of (env : Env) (fs : List (String × Json))
    (hts : (jget fs "timestamp").isNull = false)
    (hch : (jget fs "channel").isNull = false)
    (hparse : (match jget fs "timestamp" with
            | .str s0 => (env.parseIso (s0.replace "Z" "+00:00")).map Json.str
            | ts => some ts).isSome = true) :
    storableEntry env (Json.obj fs) = true := by
  cases hjt : jget fs "timestamp" <;> simp_all [storableEntry]

theorem storableEntry_false_of (env : Env) (fs : List (String × Json))
    (heq : (match jget fs "timestamp" with
            | .str s0 => (env.parseIso (s0.replace "Z" "+00:00")).map Json.str
            | ts => some ts) = none) :
    storableEntry env (Json.obj fs) = false := by
  cases hjt : jget fs "timestamp" <;> simp_all [storableEntry]

theorem storeSamples_ok (env : Env) (nid : String) :
    ∀ (xs : List Json) (db : DB) (n : Nat) (db2 : DB),
      storeSamples env nid db xs = .ok (n, db2) →
      n = xs.countP (storableEntry env)
      ∧ db2.nodes = db.nodes
      ∧ db2.measurements = db.measurements
      ∧ db2.channel_amplitude.length = db.channel_amplitude.length + n := by
  intro xs
  induction xs with
  | nil =>
    intro db n db2 h
    simp only [storeSamples] at h
    cases h
    exact ⟨rfl, rfl, rfl, rfl⟩
  | cons s rest ih =>
    intro db n db2 h
    rw [List.countP_cons]
    simp only [storeSamples] at h
    split at h
    case _ fs =>
      split at h
      case isTrue hskip =>
        rcases ih db n db2 h with ⟨h1, h2, h3, h4⟩
        have hst : storableEntry env (Json.obj fs) = false := by
          rcases Bool.or_eq_true_iff.mp hskip with hh | hh <;> simp [storableEntry, hh]
        rw [hst]
        exact ⟨by simpa using h1, h2, h3, h4⟩
      case isFalse hskip =>
        have hb : (jget fs "timestamp").isNull = false
            ∧ (jget fs "channel").isNull = false := by
          constructor <;> [exact Bool.eq_false_iff.mpr (fun hc => hskip (by rw [hc]; simp));
            exact Bool.eq_false_iff.mpr (fun hc => hskip (by rw [hc]; simp))]
        split at h
        case _ heq =>
          rcases ih db n db2 h with ⟨h1, h2, h3, h4⟩
          rw [storableEntry_false_of env fs heq]
          exact ⟨by simpa using h1, h2, h3, h4⟩
        case _ ts2 heq =>
          split at h
          case _ hch =>
            exact Except.noConfusion h
          case _ chV hch =>
            rcases hrec : storeSamples env nid (insertChannelAmplitude db
                ⟨ts2, some nid, chV, jget fs "signal_dbm", jget fs "noise_dbm"⟩) rest
              with dbF | ⟨m, dbF⟩ <;> rw [hrec] at h
            · exact Except.noConfusion h
            · cases h
              rcases ih _ m _ hrec with ⟨h1, h2, h3, h4⟩
              rw [storableEntry_true_of env fs hb.1 hb.2 (by rw [heq]; rfl)]
              refine ⟨by simp [h1], by simpa using h2, by simpa using h3, ?_⟩
              rw [h4]
              simp [insertChannelAmplitude]
              omega
    case _ hnotobj =>
      rcases ih db n db2 h with ⟨h1, h2, h3, h4⟩
      have hst : storableEntry env s = false := by
        cases s <;> simp_all [storableEntry]
      rw [hst]
      exact ⟨by simpa using h1, h2, h3, h4⟩

/-- C7 counterexample — the claim says a payload whose `samples` field is not
an array is rejected whole with 400; but `body.get("samples") or
body.get("channel_amplitude") or []` replaces any *falsy* value (here the
number 0) with the empty list, so the request is answered 201 with
`stored: 0` instead of 400. -/
theorem chAmp_falsy_nonarray_not_rejected :
    (apiChannelAmplitude envW ⟨none⟩ dbEmpty "k1"
        (some [("samples", Json.num 0)])).1.status = 201
    ∧ jget (apiChannelAmplitude envW ⟨none⟩ dbEmpty "k1"
        (some [("samples", Json.num 0)])).1.body "stored" = Json.num 0
    ∧ (apiChannelAmplitude envW ⟨none⟩ dbEmpty "k1"
        (some [("samples", Json.num 0)])).1.status ≠ 400 := by
  refine ⟨rfl, rfl, by decide⟩

/-- C7 (amended): a *truthy* non-array `samples` value is rejected whole with
400 and nothing stored; a falsy one is treated as an empty batch.  When the
batch is an array and every stored entry's channel converts to an integer,
exactly the storable entries (objects with non-null timestamp and channel
whose string timestamps parse) are inserted, one ChannelAmplitudeSample each
tagged with the resolved node id, and the 201 response reports `stored`
equal to the number of rows inserted. -/
theorem chAmp_batch_semantics (env : Env) (db : DB) (nid : String)
    (body : List (String × Json)) :
    (∀ xs n db2,
      pyOr (pyOr (jget body "samples") (jget body "channel_amplitude")) (Json.arr [])
          = Json.arr xs →
      storeSamples env nid db xs = .ok (n, db2) →
      chAmpWithNode env db nid (some body)
          = (⟨201, [("ok", Json.bool true), ("node_id", Json.str nid),
              ("stored", Json.num (Int.ofNat n))]⟩, touchNodeLastSeen db2 nid env.tTouch)
        ∧ n = xs.countP (storableEntry env)
        ∧ db2.channel_amplitude.length = db.channel_amplitude.length + n
        ∧ db2.nodes = db.nodes ∧ db2.measurements = db.measurements)
    ∧ (∀ j, pyOr (pyOr (jget body "samples") (jget body "channel_amplitude")) (Json.arr [])
          = j → (∀ xs, j ≠ Json.arr xs) →
        chAmpWithNode env db nid (some body)
          = (⟨400, [("error", Json.str "samples must be an array")]⟩, db)) := by
  constructor
  · intro xs n db2 hsam hsto
    have hmain : chAmpWithNode env db nid (some body)
        = (⟨201, [("ok", Json.bool true), ("node_id", Json.str nid),
            ("stored", Json.num (Int.ofNat n))]⟩, touchNodeLastSeen db2 nid env.tTouch) := by
      unfold chAmpWithNode
      dsimp only
      rw [hsam]
      dsimp only
      rw [hsto]
    rcases storeSamples_ok env nid xs db n db2 hsto with ⟨h1, h2, h3, h4⟩
    exact ⟨hmain, h1, h4, h2, h3⟩
  · intro j hj hnot
    unfold chAmpWithNode
    dsimp only
    rw [hj]
    cases j <;> first
      | rfl
      | (exact absurd rfl (hnot _))

/-- Witness for C7: the batch `bodyC7` (two valid samples, one missing
channel) is answered 201 with `stored: 2`, and exactly two rows land in the
channel_amplitude table. -/
theorem chAmp_batch_witness :
    (chAmpWithNode envW dbEmpty "n1" (some bodyC7)).1.status = 201
    ∧ jget (chAmpWithNode envW dbEmpty "n1" (some bodyC7)).1.body "stored" = Json.num 2
    ∧ (chAmpWithNode envW dbEmpty "n1" (some bodyC7)).2.channel_amplitude.length = 2 := by
  have h := (chAmp_batch_semantics envW dbEmpty "n1" bodyC7).1
    [Json.obj [("timestamp", Json.num 100), ("channel", Json.num 1)],
     Json.obj [("timestamp", Json.num 100), ("channel", Json.num 6)],
     Json.obj [("timestamp", Json.num 100)]] 2
    ⟨[], [], [⟨Json.num 100, some "n1", 1, Json.null, Json.null⟩,
      ⟨Json.num 100, some "n1", 6, Json.null, Json.null⟩]⟩ rfl rfl
  refine ⟨?_, ?_, ?_⟩ <;> rw [h.1] <;> rfl

/-! ## C10: registration happens before body parsing -/

theorem find?_append_of_none {α : Type} (p : α → Bool) (l1 l2 : List α)
    (h : l1.find? p = none) : (l1 ++ l2).find? p = l2.find? p := by
  induction l1 with
  | nil => rfl
  | cons a l ih =>
    simp only [List.find?] at h
    rw [List.cons_append]
    simp only [List.find?]
    cases hpa : p a
    · rw [hpa] at h
      dsimp only at h ⊢
      exact ih h
    · rw [hpa] at h
      cases h

/-- C10: an authenticated POST to /api/channel_amplitude with a fresh
credential and an unparsable body returns 400 — but the node record has
already been created (node resolution runs before `json.loads`), with
`last_seen` set to the registration time `tReg` and never refreshed by
`touch_node_last_seen` (which would have written `tTouch`). -/
theorem chAmp_badjson_registers_node (env : Env) (cfg : RelayConfig) (db : DB)
    (k : String) (hk : ¬ k = "")
    (hauth : cfg.relay_api_key = none ∨ cfg.relay_api_key = some k)
    (hfresh : getNodeByApiKey env.sha256hex db k = none)
    (hnoid : db.nodes.all (fun r => !(r.id == (env.sha256hex k).take 12)) = true) :
    apiChannelAmplitude env cfg db k none
      = (⟨400, [("error", Json.str "Invalid JSON")]⟩,
         ⟨db.nodes ++
             [⟨(env.sha256hex k).take 12,
               Json.str ("Node-" ++ (env.sha256hex k).take 12), none, none,
               some (env.sha256hex k), some env.tReg⟩],
           db.measurements, db.channel_amplitude⟩) := by
  have hcond : (match cfg.relay_api_key with
      | some allowed => decide (k ≠ allowed)
      | none => false) = false := by
    rcases hauth with h | h <;> simp [h]
  have hany : db.nodes.any (fun r => r.id == (env.sha256hex k).take 12) = false := by
    rw [List.any_eq_false]
    intro x hx
    have := List.all_eq_true.mp hnoid x hx
    simpa using this
  have hfind : getNodeByApiKey env.sha256hex
      ⟨db.nodes ++ [⟨(env.sha256hex k).take 12,
        Json.str ("Node-" ++ (env.sha256hex k).take 12), none, none,
        some (env.sha256hex k), some env.tReg⟩],
        db.measurements, db.channel_amplitude⟩ k
      = some ⟨(env.sha256hex k).take 12,
          Json.str ("Node-" ++ (env.sha256hex k).take 12), none, none,
          some (env.sha256hex k), some env.tReg⟩ := by
    unfold getNodeByApiKey at hfresh ⊢
    rw [find?_append_of_none _ _ _ hfresh]
    simp [List.find?]
  unfold apiChannelAmplitude
  rw [if_neg hk]
  simp only [hcond, Bool.false_eq_true, if_false]
  unfold resolveNodeChAmp
  rw [hfresh]
  dsimp only
  unfold upsertNode
  simp only [hany, Bool.false_eq_true, if_false]
  rw [hfind]
  rfl

/-- Witness for C10: the credential "k2" on the empty store, with an invalid
body, gets 400 while the node "k2k2k2k2k2k2" is created with
`last_seen = tReg = 10` (not `tTouch = 20`). -/
theorem chAmp_badjson_witness :
    apiChannelAmplitude envW ⟨none⟩ dbEmpty "k2" none
      = (⟨400, [("error", Json.str "Invalid JSON")]⟩,
         ⟨[⟨"k2k2k2k2k2k2", Json.str "Node-k2k2k2k2k2k2", none, none,
            some "k2k2k2k2k2k2", some 10⟩], [], []⟩) := by
  have h := chAmp_badjson_registers_node envW ⟨none⟩ dbEmpty "k2" (by decide)
    (Or.inl rfl) rfl rfl
  rw [h]
  rfl

end WJL
